import Mathlib

/-!
Verification of the PriceNest price-resolution and duplicate-detection core.

The definitions below are a shallow embedding of the Python sources:
  * `src/services/book_search.py`
  * `src/services/movie_search.py`
  * `src/routes/movies.py` (duplicate detector, CSV preview row
    classification, pending-search processor)
  * `src/database/sqlalchemy_connection.py` (existing-data migration)

Modelling conventions:
  * Python floats are modelled as `ℚ`.  `round(x, 2)` is modelled by
    `round2` below; Python rounds half-to-even while `round2` rounds
    half-up, which only differs at exact half-cent ties, and no claim
    below evaluates at such a tie.
  * `random.random()` (a value in `[0, 1)`) is passed in explicitly as a
    rational parameter.
  * Outbound HTTP is modelled by an oracle from the query string to a
    transport-level result.
  * Python string `.strip().lower()` (and SQL `LOWER(TRIM(_))`) is
    modelled by `pyNorm`; both lower-case ASCII letters only on the
    inputs that occur here.
-/

namespace PriceNest

/-- `round(x, 2)`: round to 2 decimal places (half-up on ties). -/
def round2 (q : ℚ) : ℚ := ((round (q * 100) : ℤ) : ℚ) / 100

/-- Python `.strip()`: drop whitespace from both ends. -/
def pyTrim (s : String) : String :=
  String.mk (((s.data.dropWhile Char.isWhitespace).reverse.dropWhile
    Char.isWhitespace).reverse)

/-- Python `.lower()` (ASCII case folding, which covers every input
occurring here). -/
def asciiLower (s : String) : String := String.mk (s.data.map Char.toLower)

/-- `.strip().lower()` on a Python string / `LOWER(TRIM(x))` in SQL. -/
def pyNorm (s : String) : String := asciiLower (pyTrim s)

/-- Boolean test that `p` is a prefix of `l` (character lists). -/
def charsPre : List Char → List Char → Bool
  | [], _ => true
  | _ :: _, [] => false
  | a :: as, b :: bs => a == b && charsPre as bs

/-- Boolean test that `p` occurs as a contiguous run inside `l`. -/
def charsHas (p : List Char) : List Char → Bool
  | [] => p.isEmpty
  | c :: rest => charsPre p (c :: rest) || charsHas p rest

/-- Python's `sub in s` substring test. -/
def strHas (s sub : String) : Bool := charsHas sub.data s.data

/-- `list(dict.fromkeys(xs))`: deduplicate keeping first occurrences. -/
def dedupFirst : List String → List String
  | [] => []
  | x :: xs => x :: dedupFirst (xs.filter (fun y => y ≠ x))
termination_by l => l.length
decreasing_by
  simp only [List.length_cons]
  exact Nat.lt_succ_of_le (List.length_filter_le _ _)

/-! ## Book search (`src/services/book_search.py`) -/

/-- `saleInfo.listPrice` from a Google Books response. -/
structure ListPrice where
  amount : Option ℚ
  currencyCode : Option String
deriving DecidableEq

/-- `saleInfo` from a Google Books response. -/
structure SaleInfo where
  listPrice : Option ListPrice
deriving DecidableEq

/-- `volumeInfo` from a Google Books response. -/
structure VolumeInfo where
  title : Option String
  authors : List String
  pageCount : Option ℤ
deriving DecidableEq

/-- Python truthiness of `sale_info.get("listPrice", {}).get("amount")`:
the amount is present and non-zero. -/
def hasRealAmount (saleInfo : SaleInfo) : Bool :=
  match saleInfo.listPrice with
  | none => false
  | some lp =>
    match lp.amount with
    | none => false
    | some a => a ≠ 0

/-- `generate_realistic_price(volume_info, sale_info)`; `rand` stands for
the `random.random()` draw used on the synthesized branch. -/
def generate_realistic_price (volumeInfo : VolumeInfo) (saleInfo : SaleInfo)
    (rand : ℚ) : ℚ :=
  match saleInfo.listPrice with
  | some lp =>
    match lp.amount with
    | some a =>
      if a ≠ 0 then
        let currency := lp.currencyCode.getD "GBP"
        let price := if currency = "USD" then a * (79 / 100) else a
        round2 price
      else synthesizeBookPrice volumeInfo rand
    | none => synthesizeBookPrice volumeInfo rand
  | none => synthesizeBookPrice volumeInfo rand
where
  /-- The synthesized branch: base from page count, jitter, clamp, round. -/
  synthesizeBookPrice (volumeInfo : VolumeInfo) (rand : ℚ) : ℚ :=
    let pageCount := volumeInfo.pageCount.getD 250
    let basePrice : ℚ :=
      if pageCount > 400 then 1299 / 100
      else if pageCount > 300 then 1099 / 100
      else if pageCount < 150 then 699 / 100
      else 899 / 100
    let variation := (rand - 1 / 2) * 2
    round2 (max (299 / 100) (min (1999 / 100) (basePrice + variation)))

/-- `requests.utils.quote` restricted to the ASCII inputs that occur
here: percent-encode every character outside the safe set. -/
def urlQuote (s : String) : String :=
  String.mk (s.data.flatMap quoteChar)
where
  hexDigit (n : Nat) : Char :=
    if n < 10 then Char.ofNat (48 + n) else Char.ofNat (55 + n)
  quoteChar (c : Char) : List Char :=
    if c.isAlphanum || c = '_' || c = '.' || c = '-' || c = '~' || c = '/' then [c]
    else ['%', hexDigit (c.toNat / 16), hexDigit (c.toNat % 16)]

/-- One normalized book result (the dict built in `search_google_books`). -/
structure Book where
  title : String
  author : String
  name : String
  price : ℚ
  url : String
  priceSource : String
deriving DecidableEq

/-- The value of `search_google_books`. -/
structure BookSearchResult where
  books : List Book
  total : ℕ
  source : String
deriving DecidableEq

/-- `get_mock_results(query)`. -/
def get_mock_results (query : String) : BookSearchResult :=
  let url := "https://www.kobo.com/gb/en/search?query=" ++ urlQuote query
  let b1 : Book :=
    { title := query ++ " - Sample Book 1"
      author := "Sample Author"
      name := query ++ " - Sample Book 1 by Sample Author"
      price := 999 / 100
      url := url
      priceSource := "sample" }
  let b2 : Book :=
    { title := query ++ " - Sample Book 2"
      author := "Another Author"
      name := query ++ " - Sample Book 2 by Another Author"
      price := 1299 / 100
      url := url
      priceSource := "sample" }
  { books := [b1, b2], total := 2, source := "mock" }

/-- One raw `items[i]` entry of a Google Books response. -/
structure RawBook where
  volumeInfo : VolumeInfo
  saleInfo : SaleInfo
deriving DecidableEq

/-- Transport-level outcome of the single Google Books GET. -/
inductive BookHttpResult where
  /-- `response.ok` with the decoded `items` array. -/
  | ok (items : List RawBook)
  /-- `not response.ok` (any non-2xx/3xx status). -/
  | httpError (status : ℕ)
  /-- an exception out of `requests.get` / decoding. -/
  | exn (msg : String)
deriving DecidableEq

/-- Sort key of `books.sort` in `search_google_books`: real prices
first, then ascending price. -/
def bookSortKey (b : Book) : ℕ × ℚ :=
  (if b.priceSource = "google_books" then 0 else 1, b.price)

/-- Lexicographic comparison of `bookSortKey` (Python tuple `<=`). -/
def bookKeyLe (a b : Book) : Bool :=
  decide ((bookSortKey a).1 < (bookSortKey b).1 ∨
    ((bookSortKey a).1 = (bookSortKey b).1 ∧ (bookSortKey a).2 ≤ (bookSortKey b).2))

/-- `search_google_books(query)`; `oracle` is the transport outcome and
`rand i` the `random.random()` draw for the `i`-th mapped item. -/
def search_google_books (oracle : BookHttpResult) (rand : ℕ → ℚ)
    (query : String) : BookSearchResult :=
  match oracle with
  | .httpError _ => get_mock_results query
  | .exn _ => get_mock_results query
  | .ok items =>
    if items = [] then get_mock_results query
    else
      let books := (items.take 10).enum.filterMap (fun p =>
        let item := p.2
        match item.volumeInfo.title with
        | none => none
        | some title =>
          let price := generate_realistic_price item.volumeInfo item.saleInfo (rand p.1)
          let koboUrl := "https://www.kobo.com/gb/en/search?query=" ++ urlQuote title
          let joined := String.intercalate ", " item.volumeInfo.authors
          let author := if joined = "" then "Unknown Author" else joined
          let priceSource :=
            if hasRealAmount item.saleInfo then "google_books" else "estimated"
          some { title := title
                 author := author
                 name := title ++ " by " ++ author
                 price := price
                 url := koboUrl
                 priceSource := priceSource })
      let sorted := books.mergeSort bookKeyLe
      { books := sorted, total := sorted.length, source := "google_books" }

/-! ## Movie search (`src/services/movie_search.py`) -/

/-- One raw `results[i]` entry of an iTunes search response.  Every
field is optional, mirroring `item.get(...)`. -/
structure RawMovie where
  trackName : Option String
  artistName : Option String
  releaseDate : Option String
  primaryGenreName : Option String
  trackViewUrl : Option String
  artworkUrl100 : Option String
  longDescription : Option String
  shortDescription : Option String
  trackId : Option ℤ
  trackHdPrice : Option ℚ
  trackPrice : Option ℚ
  collectionPrice : Option ℚ
  trackRentalPrice : Option ℚ
  currency : Option String
deriving DecidableEq

/-- One normalized movie dict built in `search_apple_movies`. -/
structure Movie where
  title : String
  director : String
  year : Option ℤ
  genre : String
  name : String
  price : ℚ
  url : String
  priceSource : String
  currency : String
  artwork : String
  description : String
  trackId : Option ℤ
deriving DecidableEq

/-- Scan for the first run of four decimal digits, as the regex
`(\d\d\d\d)` search does. -/
def findFourDigits : List Char → Option ℤ
  | a :: b :: c :: d :: rest =>
    if a.isDigit && b.isDigit && c.isDigit && d.isDigit then
      some ((a.toNat - 48) * 1000 + (b.toNat - 48) * 100 +
            (c.toNat - 48) * 10 + (d.toNat - 48) : ℕ)
    else findFourDigits (b :: c :: d :: rest)
  | _ => none

/-- `extract_year_from_release_date(release_date)`. -/
def extract_year_from_release_date (releaseDate : String) : Option ℤ :=
  if releaseDate = "" then none else findFourDigits releaseDate.data

/-- `generate_estimated_movie_price(item)`; `rand` is the
`random.random()` draw. -/
def generate_estimated_movie_price (item : RawMovie) (rand : ℚ) : ℚ :=
  let year := extract_year_from_release_date (item.releaseDate.getD "")
  let currentYear : ℤ := 2025
  let baseRental : ℚ :=
    match year with
    | some y =>
      if y ≠ 0 ∧ y ≥ currentYear - 1 then 499 / 100
      else if y ≠ 0 ∧ y ≥ currentYear - 3 then 399 / 100
      else 349 / 100
    | none => 349 / 100
  let variation := (rand - 1 / 2) * 1
  round2 (max (299 / 100) (baseRental + variation))

/-- The `{price, source, currency}` dict of `get_apple_pricing`. -/
structure PriceInfo where
  price : ℚ
  source : String
  currency : String
deriving DecidableEq

/-- Python truthiness-and-positivity test `if p and p > 0` on an
optional price. -/
def positivePrice (p : Option ℚ) : Option ℚ :=
  match p with
  | some v => if v ≠ 0 ∧ v > 0 then some v else none
  | none => none

/-- `get_apple_pricing(item)`; `rand` feeds the estimated branch. -/
def get_apple_pricing (item : RawMovie) (rand : ℚ) : PriceInfo :=
  let currency := item.currency.getD "GBP"
  match positivePrice item.trackHdPrice with
  | some p => { price := p, source := "apple_hd_purchase", currency := currency }
  | none =>
    match positivePrice item.trackPrice with
    | some p => { price := p, source := "apple_purchase", currency := currency }
    | none =>
      match positivePrice item.collectionPrice with
      | some p => { price := p, source := "apple_collection", currency := currency }
      | none =>
        match positivePrice item.trackRentalPrice with
        | some p => { price := p, source := "apple_rental", currency := currency }
        | none =>
          { price := generate_estimated_movie_price item rand
            source := "estimated"
            currency := "GBP" }

/-- `get_price_priority(price_source)` (substring checks). -/
def get_price_priority (priceSource : String) : ℕ :=
  if strHas priceSource "hd_purchase" then 0
  else if strHas priceSource "apple_purchase" then 1
  else if strHas priceSource "collection" then 2
  else if strHas priceSource "rental" then 3
  else 4

/-- `is_collection_movie(movie)`. -/
def is_collection_movie (m : Movie) : Bool :=
  let url := asciiLower m.url
  let description := asciiLower m.description
  strHas url "collection" || strHas url "bundle" ||
    strHas description "collection" || strHas description "bundle"

/-- The sort key of `movies.sort` (a Python bool is compared as 0/1). -/
def movieSortKey (m : Movie) : ℕ × ℕ × ℚ :=
  (if is_collection_movie m then 1 else 0,
   get_price_priority m.priceSource,
   if m.price ≠ 0 then m.price else 999)

/-- Lexicographic comparison of `movieSortKey` (Python tuple `<=`). -/
def movieKeyLe (a b : Movie) : Bool :=
  let ka := movieSortKey a
  let kb := movieSortKey b
  decide (ka.1 < kb.1 ∨ (ka.1 = kb.1 ∧ (ka.2.1 < kb.2.1 ∨
    (ka.2.1 = kb.2.1 ∧ ka.2.2 ≤ kb.2.2))))

/-- The final `movies.sort(key=...)` of `search_apple_movies`
(Python's sort is stable; so is `List.mergeSort`). -/
def sortMovies (movies : List Movie) : List Movie :=
  movies.mergeSort movieKeyLe

/-- Map one raw result to a movie dict (`None` when `trackName` is
missing and the item is skipped). -/
def rawToMovie (item : RawMovie) (rand : ℚ) : Option Movie :=
  match item.trackName with
  | none => none
  | some title =>
    let director := item.artistName.getD "Unknown Director"
    let year := extract_year_from_release_date (item.releaseDate.getD "")
    let genre := item.primaryGenreName.getD "Unknown"
    let priceInfo := get_apple_pricing item rand
    let appleUrl := item.trackViewUrl.getD
      ("https://tv.apple.com/search?term=" ++ urlQuote title)
    let displayName :=
      match year with
      | some y => title ++ " (" ++ toString y ++ ")"
      | none => title
    some { title := title
           director := director
           year := year
           genre := genre
           name := displayName
           price := priceInfo.price
           url := appleUrl
           priceSource := priceInfo.source
           currency := priceInfo.currency
           artwork := item.artworkUrl100.getD ""
           description := (item.longDescription.getD (item.shortDescription.getD ""))
           trackId := item.trackId }

/-- The `for item in data["results"][:10]` mapping loop plus the final
sort. -/
def processResults (rand : ℕ → ℚ) (results : List RawMovie) : List Movie :=
  sortMovies ((results.take 10).enum.filterMap (fun p => rawToMovie p.2 (rand p.1)))

/-- Transport-level outcome of one iTunes search GET. -/
inductive HttpResult where
  /-- `response.ok` with the decoded `results` array. -/
  | ok (results : List RawMovie)
  /-- `not response.ok` with the status code. -/
  | httpError (status : ℕ)
  /-- `requests.exceptions.Timeout`. -/
  | timeout
  /-- any other `requests.exceptions.RequestException`. -/
  | reqError (msg : String)
deriving DecidableEq

/-- The value of `search_apple_movies`, with an extra `requests`
counter recording how many outbound GETs were issued. -/
structure SearchOutcome where
  movies : List Movie
  total : ℕ
  rateLimited : Bool
  error : Option String
  requests : ℕ
deriving DecidableEq

/-- Bump the request counter of a later outcome by the one request the
current variant issued. -/
def bumpRequest (r : SearchOutcome) : SearchOutcome :=
  { r with requests := r.requests + 1 }

/-- The `for search_query in search_queries` loop of
`search_apple_movies`, including the `for ... else` no-results exit. -/
def searchVariants (oracle : String → HttpResult) (rand : ℕ → ℚ)
    (query : String) : List String → SearchOutcome
  | [] =>
    { movies := [], total := 0, rateLimited := false
      error := some ("No Apple Store results found for \"" ++ query ++ "\"")
      requests := 0 }
  | v :: rest =>
    if v = "" then searchVariants oracle rand query rest
    else
      match oracle v with
      | .ok results =>
        if results ≠ [] then
          let movies := processResults rand results
          { movies := movies, total := movies.length, rateLimited := false
            error := none, requests := 1 }
        else bumpRequest (searchVariants oracle rand query rest)
      | .httpError status =>
        if status = 403 then
          { movies := [], total := 0, rateLimited := true
            error := some "Rate limited by Apple Store API (20 calls/minute limit)"
            requests := 1 }
        else bumpRequest (searchVariants oracle rand query rest)
      | .timeout => bumpRequest (searchVariants oracle rand query rest)
      | .reqError _ => bumpRequest (searchVariants oracle rand query rest)

/-- The ordered, deduplicated query-variant list of
`search_apple_movies`: the stripped query, the stripped query with
spaces replaced by `+`, and the stripped query cut at the first `(`
and re-stripped. -/
def buildVariants (query : String) : List String :=
  dedupFirst
    [pyTrim query,
     String.mk ((pyTrim query).data.map (fun c => if c = ' ' then '+' else c)),
     pyTrim (String.mk ((pyTrim query).data.takeWhile (fun c => c ≠ '(')))]

/-- `search_apple_movies(query)` over a transport oracle. -/
def search_apple_movies (oracle : String → HttpResult) (rand : ℕ → ℚ)
    (query : String) : SearchOutcome :=
  searchVariants oracle rand query (buildVariants query)

/-! ## Duplicate detector (`check_for_duplicate_item` in
`src/routes/movies.py`) -/

/-- A row of the `items` table, as the detector's queries read it. -/
structure InvItem where
  id : ℤ
  categoryId : ℤ
  name : String
  title : Option String
  author : Option String
  director : Option String
  year : Option ℤ
  url : String
  price : ℚ
deriving DecidableEq

/-- The dict returned alongside `True` by `check_for_duplicate_item`
(fields not selected by a given strategy stay `none`). -/
structure DupMatch where
  id : ℤ
  name : String
  title : Option String
  director : Option String
  author : Option String
  year : Option ℤ
  url : Option String
  price : ℚ
  matchReason : String
deriving DecidableEq

/-- The SQL queries the detector can issue, one per strategy. -/
inductive DupQuery where
  /-- movies strategy 1: `category_id = ? AND LOWER(TRIM(title)) = ? AND year = ?`. -/
  | titleYear (categoryId : ℤ) (titleNorm : String) (year : ℤ)
  /-- movies strategy 2: `category_id = ? AND LOWER(TRIM(title)) = ? AND LOWER(TRIM(director)) = ?`. -/
  | titleDirector (categoryId : ℤ) (titleNorm directorNorm : String)
  /-- movies strategy 3 / books fallback: `category_id = ? AND LOWER(TRIM(title)) = ?`. -/
  | titleOnly (categoryId : ℤ) (titleNorm : String)
  /-- books strategy 1: `category_id = ? AND LOWER(TRIM(title)) = ? AND LOWER(TRIM(author)) = ?`. -/
  | titleAuthor (categoryId : ℤ) (titleNorm authorNorm : String)
  /-- general: `category_id = ? AND LOWER(TRIM(name)) = ?`. -/
  | nameOnly (categoryId : ℤ) (nameNorm : String)
deriving DecidableEq

/-- `director.strip().lower() if director else None` (an empty string
is falsy). -/
def dupOptNorm (s : Option String) : Option String :=
  match s with
  | none => none
  | some v => if v = "" then none else some (pyNorm v)

/-- A movies-strategy result dict of `check_for_duplicate_item`. -/
def movieDupMatch (r : InvItem) (reason : String) : Bool × Option DupMatch :=
  (true, some { id := r.id, name := r.name, title := r.title
                director := r.director, author := none, year := r.year
                url := some r.url, price := r.price, matchReason := reason })

/-- A books-strategy result dict (selects `author`, not
`director`/`year`). -/
def bookDupMatch (r : InvItem) (reason : String) : Bool × Option DupMatch :=
  (true, some { id := r.id, name := r.name, title := r.title
                director := none, author := r.author, year := none
                url := some r.url, price := r.price, matchReason := reason })

/-- The general-category result dict. -/
def generalDupMatch (r : InvItem) : Bool × Option DupMatch :=
  (true, some { id := r.id, name := r.name, title := none
                director := none, author := none, year := none
                url := some r.url, price := r.price, matchReason := "Same name" })

/-- Movies strategy 3: title only. -/
def movieTitleOnlyStrat (db : DupQuery → Except String (Option InvItem))
    (categoryId : ℤ) (tn : String) : Except String (Bool × Option DupMatch) := do
  match ← db (.titleOnly categoryId tn) with
  | some r => return movieDupMatch r "Same title (but different details)"
  | none => return (false, none)

/-- Movies strategies 2 and 3: title + director, then title only. -/
def movieRestStrat (db : DupQuery → Except String (Option InvItem))
    (categoryId : ℤ) (director : Option String) (tn : String) :
    Except String (Bool × Option DupMatch) := do
  match dupOptNorm director with
  | some dn =>
    if dn ≠ "" then do
      match ← db (.titleDirector categoryId tn dn) with
      | some r =>
        return movieDupMatch r ("Same title and director (" ++ (director.getD "") ++ ")")
      | none => movieTitleOnlyStrat db categoryId tn
    else movieTitleOnlyStrat db categoryId tn
  | none => movieTitleOnlyStrat db categoryId tn

/-- Books fallback strategy: title only. -/
def bookRestStrat (db : DupQuery → Except String (Option InvItem))
    (categoryId : ℤ) (tn : String) : Except String (Bool × Option DupMatch) := do
  match ← db (.titleOnly categoryId tn) with
  | some r => return bookDupMatch r "Same title (but potentially different author)"
  | none => return (false, none)

/-- The body of `check_for_duplicate_item` inside its `try`. -/
def dupRun (db : DupQuery → Except String (Option InvItem))
    (categoryId : ℤ) (categoryType : String) (title : String)
    (director : Option String) (year : Option ℤ) (author : Option String) :
    Except String (Bool × Option DupMatch) := do
  let titleNorm : Option String :=
    if title = "" then none else some (pyNorm title)
  match titleNorm with
  | none => return (false, none)
  | some tn =>
    if tn = "" then return (false, none)
    else if categoryType = "movies" then
      -- Strategy 1: title + year (only for a truthy year > 1900)
      match year with
      | some y =>
        if y ≠ 0 ∧ y > 1900 then do
          match ← db (.titleYear categoryId tn y) with
          | some r => return movieDupMatch r ("Same title and year (" ++ toString y ++ ")")
          | none => movieRestStrat db categoryId director tn
        else movieRestStrat db categoryId director tn
      | none => movieRestStrat db categoryId director tn
    else if categoryType = "books" then
      match dupOptNorm author with
      | some an =>
        if an ≠ "" then do
          match ← db (.titleAuthor categoryId tn an) with
          | some r =>
            return bookDupMatch r ("Same title and author (" ++ (author.getD "") ++ ")")
          | none => bookRestStrat db categoryId tn
        else bookRestStrat db categoryId tn
      | none => bookRestStrat db categoryId tn
    else do
      match ← db (.nameOnly categoryId tn) with
      | some r => return generalDupMatch r
      | none => return (false, none)

/-- `check_for_duplicate_item(cursor, ...)`.  `db` stands for the
cursor: it may return a row, no row, or raise.  The surrounding
`try/except` turns any raise into `(False, None)`. -/
def check_for_duplicate_item (db : DupQuery → Except String (Option InvItem))
    (categoryId : ℤ) (categoryType : String) (title : String)
    (director : Option String) (year : Option ℤ) (author : Option String) :
    Bool × Option DupMatch :=
  match dupRun db categoryId categoryType title director year author with
  | .ok r => r
  | .error _ => (false, none)

/-- Whether an `items` row satisfies the WHERE clause of a strategy
query (SQL `NULL` comparisons are not satisfied). -/
def rowMatches (q : DupQuery) (r : InvItem) : Bool :=
  match q with
  | .titleYear cid tn y =>
    r.categoryId == cid &&
      (match r.title with | some t => pyNorm t == tn | none => false) &&
      (match r.year with | some ry => ry == y | none => false)
  | .titleDirector cid tn dn =>
    r.categoryId == cid &&
      (match r.title with | some t => pyNorm t == tn | none => false) &&
      (match r.director with | some d => pyNorm d == dn | none => false)
  | .titleOnly cid tn =>
    r.categoryId == cid &&
      (match r.title with | some t => pyNorm t == tn | none => false)
  | .titleAuthor cid tn an =>
    r.categoryId == cid &&
      (match r.title with | some t => pyNorm t == tn | none => false) &&
      (match r.author with | some a => pyNorm a == an | none => false)
  | .nameOnly cid nn =>
    r.categoryId == cid && pyNorm r.name == nn

/-- A cursor over an in-memory `items` table: `fetchone` returns the
first matching row and never raises. -/
def tableDb (inventory : List InvItem) : DupQuery → Except String (Option InvItem) :=
  fun q => .ok (inventory.find? (rowMatches q))

/-! ## CSV preview row classification (`preview_csv` in
`src/routes/movies.py`, lines 274–373) -/

/-- Python `int(s)` on an already-stripped string: optional sign, then
decimal digits. -/
def pyInt? (s : String) : Option ℤ :=
  match s.data with
  | '+' :: rest => (digitsVal rest).map (fun n => (n : ℤ))
  | '-' :: rest => (digitsVal rest).map (fun n => -(n : ℤ))
  | l => (digitsVal l).map (fun n => (n : ℤ))
where
  digitsVal (l : List Char) : Option ℕ :=
    if l ≠ [] ∧ l.all Char.isDigit then
      some (l.foldl (fun acc c => acc * 10 + (c.toNat - 48)) 0)
    else none

/-- The classification `preview_csv` builds for one CSV row.
`searched` records whether the external search was invoked. -/
structure RowResult where
  status : String
  error : Option String
  bestMatch : Option Movie
  searchResults : List Movie
  existingItem : Option DupMatch
  duplicateReason : Option String
  searched : Bool
deriving DecidableEq

/-- The body of the per-row loop of `preview_csv`: normalize the CSV
fields, check for a duplicate, otherwise search and classify. -/
def previewRow (db : DupQuery → Except String (Option InvItem))
    (search : String → SearchOutcome) (categoryId : ℤ)
    (rawTitle rawDirector rawYear : String) : RowResult :=
  let title := pyTrim rawTitle
  let director := if pyTrim rawDirector = "" then none else some (pyTrim rawDirector)
  let yearStr := pyTrim rawYear
  if title = "" then
    { status := "error", error := some "Missing title", bestMatch := none
      searchResults := [], existingItem := none, duplicateReason := none
      searched := false }
  else
    let year := if yearStr = "" then none else pyInt? yearStr
    let dup := check_for_duplicate_item db categoryId "movies" title director year none
    if dup.1 then
      { status := "duplicate", error := none, bestMatch := none
        searchResults := [], existingItem := dup.2
        duplicateReason := some ((dup.2.map DupMatch.matchReason).getD "Duplicate found")
        searched := false }
    else
      let sr := search title
      if sr.movies ≠ [] then
        { status := "found", error := none, bestMatch := sr.movies.head?
          searchResults := sr.movies, existingItem := none
          duplicateReason := none, searched := true }
      else if sr.rateLimited then
        { status := "pending", error := sr.error, bestMatch := none
          searchResults := sr.movies, existingItem := none
          duplicateReason := none, searched := true }
      else
        { status := "not_found"
          error := some (match sr.error with
            | some e => if e = "" then "No results found for '" ++ title ++ "'" else e
            | none => "No results found for '" ++ title ++ "'")
          bestMatch := none, searchResults := sr.movies, existingItem := none
          duplicateReason := none, searched := true }

/-! ## Pending-search processor (`process_pending` in
`src/routes/movies.py`) -/

/-- A row of `pending_movie_searches`.  The table is modelled as a list
already in `created_at ASC` order; timestamps themselves are outside
the model. -/
structure PendingRow where
  id : ℤ
  categoryId : ℤ
  title : String
  director : Option String
  year : Option ℤ
  csvRowData : Option String
  status : String
  retryCount : ℤ
deriving DecidableEq

/-- An `items` row inserted by `process_pending`. -/
structure ImportedItem where
  categoryId : ℤ
  name : String
  title : String
  director : Option String
  year : Option ℤ
  url : String
  price : ℚ
  bought : Bool
deriving DecidableEq

/-- The item insert of `process_pending`: CSV-stored director/year are
the fallbacks when the catalog result's are falsy. -/
def importFromPending (p : PendingRow) (m : Movie) : ImportedItem :=
  { categoryId := p.categoryId
    name :=
      if m.name ≠ "" then m.name
      else m.title ++ " (" ++ (match m.year with
        | some y => toString y
        | none => "Unknown") ++ ")"
    title := m.title
    director := if m.director ≠ "" then some m.director else p.director
    year := (match m.year with
      | some y => if y ≠ 0 then some y else p.year
      | none => p.year)
    url := m.url
    price := m.price
    bought := false }

/-- What one processing run changed: the new versions of the pending
rows it touched, the items it inserted, and the reported counters. -/
structure PendingRunResult where
  updates : List PendingRow
  inserted : List ImportedItem
  processed : ℕ
  imported : ℕ
  failed : ℕ
deriving DecidableEq

/-- The `for search in pending_searches` loop of `process_pending`:
bump the retry count, re-search, then complete / stop on rate limit /
fail after the ceiling / leave pending. -/
def processSelected (oracle : String → SearchOutcome) :
    List PendingRow → PendingRunResult
  | [] => { updates := [], inserted := [], processed := 0, imported := 0, failed := 0 }
  | p :: rest =>
    let p' := { p with retryCount := p.retryCount + 1 }
    let sr := oracle p.title
    match sr.movies with
    | m :: _ =>
      let r := processSelected oracle rest
      { updates := { p' with status := "completed" } :: r.updates
        inserted := importFromPending p m :: r.inserted
        processed := r.processed + 1, imported := r.imported + 1
        failed := r.failed }
    | [] =>
      if sr.rateLimited then
        -- `break`: only this row's retry-count bump persists, the rest
        -- of the selected rows are untouched this run.
        { updates := [p'], inserted := [], processed := 0, imported := 0, failed := 0 }
      else if p.retryCount ≥ 3 then
        let r := processSelected oracle rest
        { updates := { p' with status := "failed" } :: r.updates
          inserted := r.inserted, processed := r.processed + 1
          imported := r.imported, failed := r.failed + 1 }
      else
        let r := processSelected oracle rest
        { updates := p' :: r.updates, inserted := r.inserted
          processed := r.processed + 1, imported := r.imported
          failed := r.failed }

/-- `SELECT ... WHERE status = 'pending' ORDER BY created_at ASC LIMIT 5`. -/
def selectPending (queue : List PendingRow) : List PendingRow :=
  (queue.filter (fun p => p.status == "pending")).take 5

/-- `process_pending()`: run the loop on the selected rows and write
the per-id updates back to the table. -/
def process_pending (oracle : String → SearchOutcome)
    (queue : List PendingRow) : PendingRunResult × List PendingRow :=
  let r := processSelected oracle (selectPending queue)
  (r, queue.map (fun p => (r.updates.find? (fun u => u.id == p.id)).getD p))

/-! ## Existing-data migration (`migrate_existing_data` in
`src/database/sqlalchemy_connection.py`) -/

/-- A table row as the migration sees it: the `id` used in the
existence check, plus the remaining columns (left abstract). -/
structure MigRow where
  id : ℤ
  payload : String
deriving DecidableEq

/-- `Model.query.filter_by(id=i).first() is not None`. -/
def anyId (l : List MigRow) (i : ℤ) : Bool := l.any (fun r => r.id == i)

/-- One table's migration loop: for each source row, insert the
converted entity unless a destination row with the same id exists.
`convert` is the `Category(...)` / `Item(...)` / ... constructor call. -/
def migrateTable (convert : MigRow → MigRow) (src dst : List MigRow) :
    List MigRow :=
  src.foldl (fun d r => if anyId d r.id then d else d ++ [convert r]) dst

/-- The four tables `migrate_existing_data` touches. -/
structure DbState where
  categories : List MigRow
  items : List MigRow
  priceHistory : List MigRow
  pendingSearches : List MigRow
deriving DecidableEq

/-- `migrate_existing_data()` over explicit source and destination
states; `cc`/`ci`/`cp`/`cs` are the four entity constructors. -/
def migrate_existing_data (cc ci cp cs : MigRow → MigRow)
    (src dst : DbState) : DbState :=
  { categories := migrateTable cc src.categories dst.categories
    items := migrateTable ci src.items dst.items
    priceHistory := migrateTable cp src.priceHistory dst.priceHistory
    pendingSearches := migrateTable cs src.pendingSearches dst.pendingSearches }

/-! ## Helper lemmas -/

theorem round2_ge_299 {x : ℚ} (h : 299 / 100 ≤ x) : 299 / 100 ≤ round2 x := by
  unfold round2
  rw [round_eq]
  have h1 : (299 : ℤ) ≤ ⌊x * 100 + 1 / 2⌋ := by
    rw [Int.le_floor]
    push_cast
    linarith
  have h2 : (299 : ℚ) ≤ (⌊x * 100 + 1 / 2⌋ : ℤ) := by exact_mod_cast h1
  linarith

theorem round2_le_1999 {x : ℚ} (h : x ≤ 1999 / 100) : round2 x ≤ 1999 / 100 := by
  unfold round2
  rw [round_eq]
  have h1 : ⌊x * 100 + 1 / 2⌋ ≤ (1999 : ℤ) := by
    rw [Int.floor_le_iff]
    push_cast
    linarith
  have h2 : ((⌊x * 100 + 1 / 2⌋ : ℤ) : ℚ) ≤ 1999 := by exact_mod_cast h1
  linarith

theorem synthesizeBookPrice_bounds (vi : VolumeInfo) (r : ℚ) :
    299 / 100 ≤ generate_realistic_price.synthesizeBookPrice vi r ∧
      generate_realistic_price.synthesizeBookPrice vi r ≤ 1999 / 100 := by
  unfold generate_realistic_price.synthesizeBookPrice
  constructor
  · exact round2_ge_299 (le_max_left _ _)
  · exact round2_le_1999 (max_le (by norm_num) (min_le_left _ _))

/-! ## Claims -/

/-- Claim C6: every synthesized book price lies in `[2.99, 19.99]` for
every jitter value, and every synthesized movie rental estimate is at
least `2.99` for every jitter value and release date. -/
theorem claim_C6_price_bounds :
    (∀ (vi : VolumeInfo) (si : SaleInfo) (r : ℚ), hasRealAmount si = false →
      299 / 100 ≤ generate_realistic_price vi si r ∧
        generate_realistic_price vi si r ≤ 1999 / 100) ∧
    (∀ (item : RawMovie) (r : ℚ),
      299 / 100 ≤ generate_estimated_movie_price item r) := by
  constructor
  · intro vi si r hreal
    obtain ⟨lp⟩ := si
    match lp with
    | none => exact synthesizeBookPrice_bounds vi r
    | some ⟨none, cc⟩ => exact synthesizeBookPrice_bounds vi r
    | some ⟨some a, cc⟩ =>
      have ha : a = 0 := by
        by_contra hne
        simp [hasRealAmount, hne] at hreal
      subst ha
      simpa [generate_realistic_price] using synthesizeBookPrice_bounds vi r
  · intro item r
    unfold generate_estimated_movie_price
    exact round2_ge_299 (le_max_left _ _)

/-- An iTunes raw result with every field absent. -/
def emptyRawMovie : RawMovie :=
  { trackName := none, artistName := none, releaseDate := none
    primaryGenreName := none, trackViewUrl := none, artworkUrl100 := none
    longDescription := none, shortDescription := none, trackId := none
    trackHdPrice := none, trackPrice := none, collectionPrice := none
    trackRentalPrice := none, currency := none }

/-- Witness for C6 at a concrete page-less volume and jitter 0. -/
theorem claim_C6_price_bounds_witness :
    (299 / 100 ≤ generate_realistic_price ⟨none, [], none⟩ ⟨none⟩ 0 ∧
      generate_realistic_price ⟨none, [], none⟩ ⟨none⟩ 0 ≤ 1999 / 100) ∧
    299 / 100 ≤ generate_estimated_movie_price emptyRawMovie 0 :=
  ⟨claim_C6_price_bounds.1 ⟨none, [], none⟩ ⟨none⟩ 0 rfl,
   claim_C6_price_bounds.2 emptyRawMovie 0⟩

/-- Counterexample to claim C7 as stated: a EUR list price is a
non-GBP currency, yet the code leaves it unconverted — a list price of
EUR 10.00 yields 10.00, not `round(10.00 * 0.79, 2)`. -/
theorem claim_C7_counterexample :
    generate_realistic_price ⟨none, [], none⟩ ⟨some ⟨some 10, some "EUR"⟩⟩ 0 = 10 ∧
      generate_realistic_price ⟨none, [], none⟩ ⟨some ⟨some 10, some "EUR"⟩⟩ 0 ≠
        round2 (10 * (79 / 100)) := by
  have hne : ("EUR" : String) ≠ "USD" := by decide
  constructor
  · norm_num [generate_realistic_price, hne, round2, round_eq]
  · norm_num [generate_realistic_price, hne, round2, round_eq]

/-- Claim C7 as amended: a real list price is converted with the fixed
0.79 multiplier only when its currency is USD (any other currency's
amount is used as-is), rounded to 2 decimals, with no jitter applied;
a USD list price of 25.00 deterministically yields 19.75. -/
theorem claim_C7_usd_conversion (vi : VolumeInfo) (cc : Option String)
    (a r r' : ℚ) (ha : a ≠ 0) :
    generate_realistic_price vi ⟨some ⟨some a, cc⟩⟩ r =
      round2 (if cc.getD "GBP" = "USD" then a * (79 / 100) else a) ∧
    generate_realistic_price vi ⟨some ⟨some a, cc⟩⟩ r =
      generate_realistic_price vi ⟨some ⟨some a, cc⟩⟩ r' ∧
    generate_realistic_price vi ⟨some ⟨some 25, some "USD"⟩⟩ r = 79 / 4 := by
  refine ⟨by simp [generate_realistic_price, ha], by simp [generate_realistic_price, ha], ?_⟩
  norm_num [generate_realistic_price, round2, round_eq]

/-- Witness for C7 (amended) at EUR 10.00 with jitters 0 and 1/2. -/
theorem claim_C7_usd_conversion_witness :
    generate_realistic_price ⟨none, [], none⟩ ⟨some ⟨some 10, some "EUR"⟩⟩ 0 =
      round2 (if (some "EUR").getD "GBP" = "USD" then 10 * (79 / 100) else 10) ∧
    generate_realistic_price ⟨none, [], none⟩ ⟨some ⟨some 10, some "EUR"⟩⟩ 0 =
      generate_realistic_price ⟨none, [], none⟩ ⟨some ⟨some 10, some "EUR"⟩⟩ (1 / 2) ∧
    generate_realistic_price ⟨none, [], none⟩ ⟨some ⟨some 25, some "USD"⟩⟩ 0 = 79 / 4 :=
  claim_C7_usd_conversion ⟨none, [], none⟩ (some "EUR") 10 0 (1 / 2) (by norm_num)

theorem movieKeyLe_iff (a b : Movie) :
    movieKeyLe a b = true ↔
      (movieSortKey a).1 < (movieSortKey b).1 ∨
        ((movieSortKey a).1 = (movieSortKey b).1 ∧
          ((movieSortKey a).2.1 < (movieSortKey b).2.1 ∨
            ((movieSortKey a).2.1 = (movieSortKey b).2.1 ∧
              (movieSortKey a).2.2 ≤ (movieSortKey b).2.2))) := by
  simp [movieKeyLe]

theorem movieKeyLe_trans (a b c : Movie) (h₁ : movieKeyLe a b) (h₂ : movieKeyLe b c) :
    movieKeyLe a c := by
  rw [movieKeyLe_iff] at *
  rcases h₁ with h₁ | ⟨e₁, h₁ | ⟨e₁', q₁⟩⟩ <;>
    rcases h₂ with h₂ | ⟨e₂, h₂ | ⟨e₂', q₂⟩⟩ <;>
    first
      | (left; omega)
      | (right; exact ⟨by omega, by left; omega⟩)
      | (right; exact ⟨by omega, by right; exact ⟨by omega, by linarith⟩⟩)

theorem movieKeyLe_total (a b : Movie) : movieKeyLe a b || movieKeyLe b a := by
  rw [Bool.or_eq_true, movieKeyLe_iff, movieKeyLe_iff]
  rcases Nat.lt_trichotomy (movieSortKey a).1 (movieSortKey b).1 with h | h | h
  · exact Or.inl (Or.inl h)
  · rcases Nat.lt_trichotomy (movieSortKey a).2.1 (movieSortKey b).2.1 with h' | h' | h'
    · exact Or.inl (Or.inr ⟨h, Or.inl h'⟩)
    · rcases le_total (movieSortKey a).2.2 (movieSortKey b).2.2 with hq | hq
      · exact Or.inl (Or.inr ⟨h, Or.inr ⟨h', hq⟩⟩)
      · exact Or.inr (Or.inr ⟨h.symm, Or.inr ⟨h'.symm, hq⟩⟩)
    · exact Or.inr (Or.inr ⟨h.symm, Or.inl h'⟩)
  · exact Or.inr (Or.inl h)

/-- A permutation between two lists sorted under `le` is the identity,
provided `le` is antisymmetric on the elements involved. -/
theorem pairwise_perm_eq {α : Type} {le : α → α → Bool} :
    ∀ {l₁ l₂ : List α}, l₁.Perm l₂ →
      l₁.Pairwise (fun a b => le a b = true) →
      l₂.Pairwise (fun a b => le a b = true) →
      (∀ a ∈ l₁, ∀ b ∈ l₁, le a b = true → le b a = true → a = b) →
      l₁ = l₂ := by
  intro l₁
  induction l₁ with
  | nil =>
    intro l₂ p _ _ _
    exact p.nil_eq
  | cons a t ih =>
    intro l₂ p s₁ s₂ hanti
    cases l₂ with
    | nil => exact absurd p.eq_nil (by simp)
    | cons b t₂ =>
      have hab : a = b := by
        have hbmem : b ∈ a :: t := p.symm.subset (List.mem_cons_self b t₂)
        have hamem : a ∈ b :: t₂ := p.subset (List.mem_cons_self a t)
        rcases List.mem_cons.mp hbmem with h | h
        · exact h.symm
        · rcases List.mem_cons.mp hamem with h' | h'
          · exact h'
          · have h1 : le a b = true := (List.pairwise_cons.mp s₁).1 b h
            have h2 : le b a = true := (List.pairwise_cons.mp s₂).1 a h'
            exact hanti a (List.mem_cons_self a t) b hbmem h1 h2
      subst hab
      have p' : t.Perm t₂ := (List.perm_cons a).mp p
      have ht : t = t₂ :=
        ih p' (List.pairwise_cons.mp s₁).2 (List.pairwise_cons.mp s₂).2
          (fun x hx y hy => hanti x (List.mem_cons_of_mem a hx) y (List.mem_cons_of_mem a hy))
      rw [ht]

/-- `sortMovies` permutes its input and leaves it sorted by the
three-part key. -/
theorem sortMovies_sorts (ms : List Movie) :
    (sortMovies ms).Perm ms ∧
      (sortMovies ms).Pairwise (fun a b => movieKeyLe a b = true) :=
  ⟨List.mergeSort_perm ms movieKeyLe,
   List.sorted_mergeSort (fun a b c => movieKeyLe_trans a b c) movieKeyLe_total ms⟩

/-- A movie candidate with the given price source and price, and no
collection/bundle marker in its URL or description. -/
def exMovie (src : String) (price : ℚ) : Movie :=
  { title := "Example", director := "Example Director", year := none
    genre := "Drama", name := "Example", price := price
    url := "https://itunes.apple.com/gb/movie/example"
    priceSource := src, currency := "GBP", artwork := ""
    description := "", trackId := none }

/-- The rental-priced candidate of the ranking-stability scenario. -/
def exRental : Movie := exMovie "apple_rental" 3

/-- The purchase-priced candidate of the ranking-stability scenario. -/
def exPurchase : Movie := exMovie "apple_purchase" 10

/-- The HD-purchase candidate of the ranking-stability scenario. -/
def exHd : Movie := exMovie "apple_hd_purchase" 12

/-- Claim C1: the movie ranker sorts ascending by the triple
(collection flag, price-source priority, price with a falsy price
treated as 999); the priorities are `apple_hd_purchase` 0 <
`apple_purchase` 1 < `apple_collection` 2 < `apple_rental` 3 <
anything else 4; and every permutation of the rental-3 / purchase-10 /
hd-purchase-12 candidates ranks as [hd, purchase, rental]. -/
theorem claim_C1_movie_ranking :
    (∀ ms : List Movie, (sortMovies ms).Perm ms ∧
      (sortMovies ms).Pairwise (fun a b => movieKeyLe a b = true)) ∧
    (get_price_priority "apple_hd_purchase" = 0 ∧
     get_price_priority "apple_purchase" = 1 ∧
     get_price_priority "apple_collection" = 2 ∧
     get_price_priority "apple_rental" = 3 ∧
     get_price_priority "estimated" = 4) ∧
    (∀ l : List Movie, l.Perm [exRental, exPurchase, exHd] →
      sortMovies l = [exHd, exPurchase, exRental]) := by
  refine ⟨sortMovies_sorts, by decide, ?_⟩
  intro l hl
  have hperm : (sortMovies l).Perm [exHd, exPurchase, exRental] :=
    (sortMovies_sorts l).1.trans (hl.trans (by decide))
  have hsorted₂ : List.Pairwise (fun a b => movieKeyLe a b = true)
      [exHd, exPurchase, exRental] := by decide
  refine pairwise_perm_eq hperm (sortMovies_sorts l).2 hsorted₂ ?_
  intro a ha b hb h1 h2
  have ha' : a ∈ [exHd, exPurchase, exRental] := hperm.subset ha
  have hb' : b ∈ [exHd, exPurchase, exRental] := hperm.subset hb
  fin_cases ha' <;> fin_cases hb' <;> revert h1 h2 <;> decide

/-- Witness for C1: the concrete input order rental, purchase, hd is
re-ranked to hd, purchase, rental. -/
theorem claim_C1_movie_ranking_witness :
    sortMovies [exRental, exPurchase, exHd] = [exHd, exPurchase, exRental] :=
  claim_C1_movie_ranking.2.2 [exRental, exPurchase, exHd] (by decide)

/-- The `items` row the duplicate-precedence scenario stores: "Dune",
year 2021, some other director. -/
def duneItem : InvItem :=
  { id := 1, categoryId := 7, name := "Dune (2021)", title := some "Dune"
    author := none, director := some "Some Other Director", year := some 2021
    url := "https://example.com/dune", price := 10 }

/-- Claim C2: for movie duplicate checks with a non-blank title the
strategies run in strict order — title+year (when the year is truthy
and > 1900), then title+director, then title alone — returning on the
first hit with the corresponding reason; the Dune/2021 scenario
matches via title+year; a blank title reports no duplicate. -/
theorem claim_C2_duplicate_precedence :
    (∀ (db : DupQuery → Except String (Option InvItem)) (cid : ℤ)
       (title : String) (director : Option String) (year : Option ℤ)
       (author : Option String) (r : InvItem) (y : ℤ),
      pyNorm title ≠ "" → title ≠ "" → year = some y → 1900 < y →
      db (.titleYear cid (pyNorm title) y) = .ok (some r) →
      check_for_duplicate_item db cid "movies" title director year author =
        (true, some { id := r.id, name := r.name, title := r.title
                      director := r.director, author := none, year := r.year
                      url := some r.url, price := r.price
                      matchReason := "Same title and year (" ++ toString y ++ ")" })) ∧
    (∀ (db : DupQuery → Except String (Option InvItem)) (cid : ℤ)
       (title : String) (d : String) (year : Option ℤ)
       (author : Option String) (r : InvItem),
      pyNorm title ≠ "" → title ≠ "" →
      (∀ y, year = some y → ¬y = 0 ∧ 1900 < y →
        db (.titleYear cid (pyNorm title) y) = .ok none) →
      d ≠ "" → pyNorm d ≠ "" →
      db (.titleDirector cid (pyNorm title) (pyNorm d)) = .ok (some r) →
      check_for_duplicate_item db cid "movies" title (some d) year author =
        (true, some { id := r.id, name := r.name, title := r.title
                      director := r.director, author := none, year := r.year
                      url := some r.url, price := r.price
                      matchReason := "Same title and director (" ++ d ++ ")" })) ∧
    (∀ (db : DupQuery → Except String (Option InvItem)) (cid : ℤ)
       (title : String) (director : Option String) (year : Option ℤ)
       (author : Option String) (r : InvItem),
      pyNorm title ≠ "" → title ≠ "" →
      (∀ y, year = some y → ¬y = 0 ∧ 1900 < y →
        db (.titleYear cid (pyNorm title) y) = .ok none) →
      (∀ d, director = some d → d ≠ "" → pyNorm d ≠ "" →
        db (.titleDirector cid (pyNorm title) (pyNorm d)) = .ok none) →
      db (.titleOnly cid (pyNorm title)) = .ok (some r) →
      check_for_duplicate_item db cid "movies" title director year author =
        (true, some { id := r.id, name := r.name, title := r.title
                      director := r.director, author := none, year := r.year
                      url := some r.url, price := r.price
                      matchReason := "Same title (but different details)" })) ∧
    (∀ (db : DupQuery → Except String (Option InvItem)) (cid : ℤ)
       (ct title : String) (director : Option String) (year : Option ℤ)
       (author : Option String),
      pyNorm title = "" →
      check_for_duplicate_item db cid ct title director year author = (false, none)) ∧
    check_for_duplicate_item (tableDb [duneItem]) 7 "movies" "Dune"
        (some "Denis Villeneuve") (some 2021) none =
      (true, some { id := 1, name := "Dune (2021)", title := some "Dune"
                    director := some "Some Other Director", author := none
                    year := some 2021, url := some "https://example.com/dune"
                    price := 10
                    matchReason := "Same title and year (2021)" }) := by
  refine ⟨?_, ?_, ?_, ?_, by decide⟩
  · intro db cid title director year author r y htn htitle hy hy1900 hdb
    subst hy
    simp [check_for_duplicate_item, dupRun, htitle, htn,
      show ¬y = 0 ∧ 1900 < y from ⟨by omega, hy1900⟩, hdb, Bind.bind, Except.bind, pure, Except.pure,
      movieDupMatch]
  · intro db cid title d year author r htn htitle hmiss hd hdn hdb
    have hopt : dupOptNorm (some d) = some (pyNorm d) := by
      simp [dupOptNorm, hd]
    match year with
    | none =>
      simp [check_for_duplicate_item, dupRun, htitle, htn,
        movieRestStrat, hopt, hdn, hdb, Bind.bind, Except.bind, pure, Except.pure,
        movieDupMatch]
    | some y =>
      by_cases hcond : ¬y = 0 ∧ 1900 < y
      · simp [check_for_duplicate_item, dupRun, htitle, htn,
          hcond, hmiss y rfl hcond, movieRestStrat, hopt, hdn,
          hdb, Bind.bind, Except.bind, pure, Except.pure, movieDupMatch]
      · simp [check_for_duplicate_item, dupRun, htitle, htn,
          hcond, movieRestStrat, hopt, hdn, hdb, Bind.bind, Except.bind, pure, Except.pure,
          movieDupMatch]
  · intro db cid title director year author r htn htitle hmiss1 hmiss2 hdb
    have hrest : movieRestStrat db cid director
        (pyNorm title) = .ok (true, some
          { id := r.id, name := r.name, title := r.title
            director := r.director, author := none, year := r.year
            url := some r.url, price := r.price
            matchReason := "Same title (but different details)" }) := by
      match director with
      | none =>
        simp [movieRestStrat, dupOptNorm,
          movieTitleOnlyStrat, hdb, Bind.bind, Except.bind, pure, Except.pure,
          movieDupMatch]
      | some d =>
        by_cases hd : d = ""
        · simp [movieRestStrat, dupOptNorm,
            hd, movieTitleOnlyStrat, hdb, Bind.bind, Except.bind, pure, Except.pure,
            movieDupMatch]
        · by_cases hdn : pyNorm d = ""
          · simp [movieRestStrat, dupOptNorm,
              hd, hdn, movieTitleOnlyStrat, hdb, Bind.bind, Except.bind, pure, Except.pure,
              movieDupMatch]
          · simp [movieRestStrat, dupOptNorm,
              hd, hdn, hmiss2 d rfl hd hdn, movieTitleOnlyStrat,
              hdb, Bind.bind, Except.bind, pure, Except.pure, movieDupMatch]
    match year with
    | none =>
      simp [check_for_duplicate_item, dupRun, htitle, htn, hrest]
    | some y =>
      by_cases hcond : ¬y = 0 ∧ 1900 < y
      · simp [check_for_duplicate_item, dupRun, htitle, htn,
          hcond, hmiss1 y rfl hcond, hrest, Bind.bind, Bind.bind, Except.bind, pure, Except.pure, pure, Except.pure]
      · simp [check_for_duplicate_item, dupRun, htitle, htn,
          hcond, hrest]
  · intro db cid ct title director year author htn
    by_cases htitle : title = ""
    · simp [check_for_duplicate_item, dupRun, htitle, pure, Except.pure]
    · simp [check_for_duplicate_item, dupRun, htitle, htn, pure, Except.pure]

/-- Witness for C2: the strategy-1 part applied to the concrete Dune
inventory and candidate. -/
theorem claim_C2_duplicate_precedence_witness :
    check_for_duplicate_item (tableDb [duneItem]) 7 "movies" "Dune"
        (some "Denis Villeneuve") (some 2021) none =
      (true, some { id := duneItem.id, name := duneItem.name, title := duneItem.title
                    director := duneItem.director, author := none, year := duneItem.year
                    url := some duneItem.url, price := duneItem.price
                    matchReason := "Same title and year (" ++ toString (2021 : ℤ) ++ ")" }) :=
  claim_C2_duplicate_precedence.1 (tableDb [duneItem]) 7 "Dune"
    (some "Denis Villeneuve") (some 2021) none duneItem 2021
    (by decide) (by decide) rfl (by norm_num) rfl

theorem movieTitleOnly_error (msg : String) (cid : ℤ) (tn : String) :
    movieTitleOnlyStrat (fun _ => .error msg) cid tn = .error msg := by
  simp [movieTitleOnlyStrat, Bind.bind, Bind.bind, Except.bind, pure, Except.pure, pure, Except.pure]

theorem movieRest_error (msg : String) (cid : ℤ) (director : Option String)
    (tn : String) :
    movieRestStrat (fun _ => .error msg) cid director tn = .error msg := by
  unfold movieRestStrat
  match h : dupOptNorm director with
  | none => simp [movieTitleOnly_error]
  | some dn =>
    by_cases hd : dn = "" <;> simp [hd, movieTitleOnly_error, Bind.bind, Bind.bind, Except.bind, pure, Except.pure, pure, Except.pure]

theorem bookRest_error (msg : String) (cid : ℤ) (tn : String) :
    bookRestStrat (fun _ => .error msg) cid tn = .error msg := by
  simp [bookRestStrat, Bind.bind, Bind.bind, Except.bind, pure, Except.pure, pure, Except.pure]

theorem check_dup_error (msg : String) (cid : ℤ) (ct title : String)
    (director : Option String) (year : Option ℤ) (author : Option String) :
    check_for_duplicate_item (fun _ => .error msg) cid ct title director year author
      = (false, none) := by
  have key : dupRun (fun _ => .error msg) cid ct title
      director year author = .error msg ∨
      dupRun (fun _ => .error msg) cid ct title
        director year author = .ok (false, none) := by
    unfold dupRun
    rcases eq_or_ne title "" with h | h
    · simp [h, pure, Except.pure]
    · rcases eq_or_ne (pyNorm title) "" with h2 | h2
      · simp [h, h2, pure, Except.pure]
      · by_cases hm : ct = "movies"
        · subst hm
          left
          simp only [h, h2, if_neg, ite_false, ite_true, if_pos rfl]
          match year with
          | none => simp [movieRest_error]
          | some y =>
            by_cases hc : ¬y = 0 ∧ 1900 < y <;>
              simp [hc, movieRest_error, Bind.bind, Bind.bind, Except.bind, pure, Except.pure, pure, Except.pure]
        · by_cases hb : ct = "books"
          · subst hb
            left
            simp only [h, h2, hm, if_neg, ite_false, ite_true, if_pos rfl]
            match ha : dupOptNorm author with
            | none => simp [bookRest_error]
            | some an =>
              by_cases han : an = "" <;>
                simp [han, bookRest_error, Bind.bind, Bind.bind, Except.bind, pure, Except.pure, pure, Except.pure]
          · simp [h, h2, hm, hb, Bind.bind, Bind.bind, Except.bind, pure, Except.pure, pure, Except.pure]
  unfold check_for_duplicate_item
  rcases key with h | h <;> simp [h]

/-- Claim C10: an exception while querying existing inventory is
swallowed — `check_for_duplicate_item` reports `(False, None)` — so a
batch row with a failing duplicate check proceeds to the external
search. -/
theorem claim_C10_duplicate_check_swallows_errors
    (msg : String) (cid : ℤ) (ct title : String) (director : Option String)
    (year : Option ℤ) (author : Option String)
    (search : String → SearchOutcome) (rawTitle rawDirector rawYear : String)
    (htitle : pyTrim rawTitle ≠ "") :
    check_for_duplicate_item (fun _ => .error msg) cid ct title director year author
      = (false, none) ∧
    (previewRow (fun _ => .error msg) search cid rawTitle rawDirector rawYear).searched
      = true := by
  refine ⟨check_dup_error msg cid ct title director year author, ?_⟩
  unfold previewRow
  simp only [htitle, if_neg, ite_false, check_dup_error]
  by_cases h1 : (search (pyTrim rawTitle)).movies = [] <;>
    by_cases h2 : (search (pyTrim rawTitle)).rateLimited <;>
    simp [h1, h2]

/-- Witness for C10 at a concrete failing cursor and blank-free row. -/
theorem claim_C10_duplicate_check_swallows_errors_witness :
    check_for_duplicate_item (fun _ => .error "db down") 7 "movies" "Dune"
        none none none = (false, none) ∧
    (previewRow (fun _ => .error "db down")
        (fun _ => { movies := [], total := 0, rateLimited := false
                    error := none, requests := 0 })
        7 "Dune" "" "").searched = true :=
  claim_C10_duplicate_check_swallows_errors "db down" 7 "movies" "Dune"
    none none none _ "Dune" "" "" (by decide)

/-- A variant's response neither ends the loop with results nor
signals the 403 rate limit: an empty result set, a non-403 HTTP
error, a timeout, or another transport error. -/
def nonTerminating (oracle : String → HttpResult) (v : String) : Prop :=
  match oracle v with
  | .ok rs => rs = []
  | .httpError s => s ≠ 403
  | .timeout => True
  | .reqError _ => True

theorem searchVariants_abort_403 (oracle : String → HttpResult)
    (rand : ℕ → ℚ) (query : String) :
    ∀ (pre : List String) (v : String) (post : List String),
      (∀ u ∈ pre, u ≠ "" → nonTerminating oracle u) →
      v ≠ "" → oracle v = .httpError 403 →
      searchVariants oracle rand query (pre ++ v :: post) =
        { movies := [], total := 0, rateLimited := true
          error := some "Rate limited by Apple Store API (20 calls/minute limit)"
          requests := (pre.filter (fun u => u ≠ "")).length + 1 } := by
  intro pre
  induction pre with
  | nil =>
    intro v post _ hv h403
    simp [searchVariants, hv, h403]
  | cons u rest ih =>
    intro v post hpre hv h403
    by_cases hu : u = ""
    · have := ih v post (fun x hx hne => hpre x (List.mem_cons_of_mem u hx) hne) hv h403
      simp [searchVariants, hu, this, List.filter_cons]
    · have hnt := hpre u (List.mem_cons_self u rest) hu
      have := ih v post (fun x hx hne => hpre x (List.mem_cons_of_mem u hx) hne) hv h403
      unfold nonTerminating at hnt
      match ho : oracle u with
      | .ok rs =>
        rw [ho] at hnt
        simp [searchVariants, hu, ho, hnt, bumpRequest, this, List.filter_cons]
      | .httpError s =>
        rw [ho] at hnt
        simp [searchVariants, hu, ho, hnt, bumpRequest, this, List.filter_cons]
      | .timeout =>
        simp [searchVariants, hu, ho, bumpRequest, this, List.filter_cons]
      | .reqError m =>
        simp [searchVariants, hu, ho, bumpRequest, this, List.filter_cons]

/-- Claim C3: a 403 on any query variant aborts the variant loop —
later variants are never requested, the result is rate-limited with no
candidates, and with a 403 on the first variant exactly one outbound
request is made. -/
theorem claim_C3_rate_limit_short_circuit :
    (∀ (oracle : String → HttpResult) (rand : ℕ → ℚ) (query : String)
       (pre : List String) (v : String) (post : List String),
      (∀ u ∈ pre, u ≠ "" → nonTerminating oracle u) →
      v ≠ "" → oracle v = .httpError 403 →
      searchVariants oracle rand query (pre ++ v :: post) =
        { movies := [], total := 0, rateLimited := true
          error := some "Rate limited by Apple Store API (20 calls/minute limit)"
          requests := (pre.filter (fun u => u ≠ "")).length + 1 }) ∧
    (∀ (oracle : String → HttpResult) (rand : ℕ → ℚ) (query : String),
      pyTrim query ≠ "" → oracle (pyTrim query) = .httpError 403 →
      search_apple_movies oracle rand query =
        { movies := [], total := 0, rateLimited := true
          error := some "Rate limited by Apple Store API (20 calls/minute limit)"
          requests := 1 }) := by
  refine ⟨fun oracle rand query => searchVariants_abort_403 oracle rand query, ?_⟩
  intro oracle rand query hq h403
  unfold search_apple_movies buildVariants dedupFirst
  have := searchVariants_abort_403 oracle rand query [] (pyTrim query)
    (dedupFirst (List.filter (fun y => y ≠ pyTrim query)
      [String.mk ((pyTrim query).data.map (fun c => if c = ' ' then '+' else c)),
       pyTrim (String.mk ((pyTrim query).data.takeWhile (fun c => c ≠ '(')))]))
    (by intro u hu; simp at hu) hq h403
  simpa using this

/-- Witness for C3: a catalog that always answers 403, queried once. -/
theorem claim_C3_rate_limit_short_circuit_witness :
    search_apple_movies (fun _ => .httpError 403) (fun _ => 0) "Dune" =
      { movies := [], total := 0, rateLimited := true
        error := some "Rate limited by Apple Store API (20 calls/minute limit)"
        requests := 1 } :=
  claim_C3_rate_limit_short_circuit.2 (fun _ => .httpError 403) (fun _ => 0)
    "Dune" (by decide) rfl

theorem searchVariants_exhaust (oracle : String → HttpResult)
    (rand : ℕ → ℚ) (query : String) :
    ∀ vs : List String,
      (∀ v ∈ vs, v ≠ "" → nonTerminating oracle v) →
      searchVariants oracle rand query vs =
        { movies := [], total := 0, rateLimited := false
          error := some ("No Apple Store results found for \"" ++ query ++ "\"")
          requests := (vs.filter (fun u => u ≠ "")).length } := by
  intro vs
  induction vs with
  | nil => intro _; simp [searchVariants]
  | cons u rest ih =>
    intro hall
    by_cases hu : u = ""
    · have := ih (fun x hx hne => hall x (List.mem_cons_of_mem u hx) hne)
      simp [searchVariants, hu, this, List.filter_cons]
    · have hnt := hall u (List.mem_cons_self u rest) hu
      have := ih (fun x hx hne => hall x (List.mem_cons_of_mem u hx) hne)
      unfold nonTerminating at hnt
      match ho : oracle u with
      | .ok rs =>
        rw [ho] at hnt
        simp [searchVariants, hu, ho, hnt, bumpRequest, this, List.filter_cons]
      | .httpError s =>
        rw [ho] at hnt
        simp [searchVariants, hu, ho, hnt, bumpRequest, this, List.filter_cons]
      | .timeout =>
        simp [searchVariants, hu, ho, bumpRequest, this, List.filter_cons]
      | .reqError m =>
        simp [searchVariants, hu, ho, bumpRequest, this, List.filter_cons]

/-- Counterexample to claim C8 as stated: a transport failure on the
single Google Books request yields two fabricated "sample" candidates,
not an empty candidate list. -/
theorem claim_C8_counterexample :
    (search_google_books (.httpError 500) (fun _ => 0) "Dune").books ≠ [] ∧
    search_google_books (.httpError 500) (fun _ => 0) "Dune" =
      get_mock_results "Dune" := by
  constructor
  · decide
  · rfl

/-- Claim C8 as amended: for movie searches, exhausting all variants
with zero raw results and no rate limit (transport failures included)
yields an empty candidate list with a descriptive not-found error and
`rateLimited = false`; the book search instead falls back to mock
"sample" candidates on an HTTP error, an exception, or an empty
catalog response. -/
theorem claim_C8_exhaustion_behaviour :
    (∀ (oracle : String → HttpResult) (rand : ℕ → ℚ) (query : String),
      (∀ v ∈ buildVariants query, v ≠ "" → nonTerminating oracle v) →
      search_apple_movies oracle rand query =
        { movies := [], total := 0, rateLimited := false
          error := some ("No Apple Store results found for \"" ++ query ++ "\"")
          requests := ((buildVariants query).filter (fun u => u ≠ "")).length }) ∧
    (∀ (rand : ℕ → ℚ) (query : String) (st : ℕ),
      search_google_books (.httpError st) rand query = get_mock_results query) ∧
    (∀ (rand : ℕ → ℚ) (query msg : String),
      search_google_books (.exn msg) rand query = get_mock_results query) ∧
    (∀ (rand : ℕ → ℚ) (query : String),
      search_google_books (.ok []) rand query = get_mock_results query) := by
  refine ⟨?_, fun _ _ _ => rfl, fun _ _ _ => rfl, fun _ _ => ?_⟩
  · intro oracle rand query hall
    exact searchVariants_exhaust oracle rand query (buildVariants query) hall
  · simp [search_google_books]

/-- Witness for C8 (amended): a catalog timing out on every variant
reports not-found with no candidates. -/
theorem claim_C8_exhaustion_behaviour_witness :
    search_apple_movies (fun _ => .timeout) (fun _ => 0) "Dune" =
      { movies := [], total := 0, rateLimited := false
        error := some ("No Apple Store results found for \"" ++ "Dune" ++ "\"")
        requests := ((buildVariants "Dune").filter (fun u => u ≠ "")).length } :=
  claim_C8_exhaustion_behaviour.1 (fun _ => .timeout) (fun _ => 0) "Dune"
    (fun v _ _ => by simp [nonTerminating])

theorem searchVariants_movies_sorted (oracle : String → HttpResult)
    (rand : ℕ → ℚ) (query : String) :
    ∀ vs : List String,
      ((searchVariants oracle rand query vs).movies).Pairwise
        (fun a b => movieKeyLe a b = true) := by
  intro vs
  induction vs with
  | nil => simp [searchVariants]
  | cons u rest ih =>
    by_cases hu : u = ""
    · simpa [searchVariants, hu] using ih
    · match ho : oracle u with
      | .ok rs =>
        by_cases hrs : rs = []
        · simpa [searchVariants, hu, ho, hrs, bumpRequest] using ih
        · simp only [searchVariants, hu, ho, if_neg, ite_false]
          simp [hrs, processResults, sortMovies,
            List.sorted_mergeSort (fun a b c => movieKeyLe_trans a b c)
              movieKeyLe_total]
      | .httpError s =>
        by_cases hs : s = 403
        · simp [searchVariants, hu, ho, hs]
        · simpa [searchVariants, hu, ho, hs, bumpRequest] using ih
      | .timeout => simpa [searchVariants, hu, ho, bumpRequest] using ih
      | .reqError m => simpa [searchVariants, hu, ho, bumpRequest] using ih

/-- The candidate list `search_apple_movies` returns is always ranked
(sorted by the movie sort key). -/
theorem search_apple_movies_ranked (oracle : String → HttpResult)
    (rand : ℕ → ℚ) (query : String) :
    ((search_apple_movies oracle rand query).movies).Pairwise
      (fun a b => movieKeyLe a b = true) :=
  searchVariants_movies_sorted oracle rand query (buildVariants query)

/-- Claim C4: for a preview row with a non-blank title, a reported
duplicate yields status `duplicate` with the existing item and reason
attached and no search call; otherwise ≥1 candidate yields `found`
with the best match equal to the head of the (always ranked) candidate
list, zero candidates with a rate limit yields `pending`, and zero
candidates otherwise yields `not_found` with a descriptive error. -/
theorem claim_C4_preview_row_mapping
    (db : DupQuery → Except String (Option InvItem))
    (search : String → SearchOutcome) (cid : ℤ)
    (rawTitle rawDirector rawYear : String)
    (htitle : pyTrim rawTitle ≠ "") :
    ((check_for_duplicate_item db cid "movies" (pyTrim rawTitle)
        (if pyTrim rawDirector = "" then none else some (pyTrim rawDirector))
        (if pyTrim rawYear = "" then none else pyInt? (pyTrim rawYear)) none).1 = true →
      (previewRow db search cid rawTitle rawDirector rawYear).status = "duplicate" ∧
      (previewRow db search cid rawTitle rawDirector rawYear).existingItem =
        (check_for_duplicate_item db cid "movies" (pyTrim rawTitle)
          (if pyTrim rawDirector = "" then none else some (pyTrim rawDirector))
          (if pyTrim rawYear = "" then none else pyInt? (pyTrim rawYear)) none).2 ∧
      (previewRow db search cid rawTitle rawDirector rawYear).duplicateReason =
        some (((check_for_duplicate_item db cid "movies" (pyTrim rawTitle)
          (if pyTrim rawDirector = "" then none else some (pyTrim rawDirector))
          (if pyTrim rawYear = "" then none else pyInt? (pyTrim rawYear)) none).2.map
            DupMatch.matchReason).getD "Duplicate found") ∧
      (previewRow db search cid rawTitle rawDirector rawYear).searched = false ∧
      (∀ search' : String → SearchOutcome,
        previewRow db search' cid rawTitle rawDirector rawYear =
          previewRow db search cid rawTitle rawDirector rawYear)) ∧
    ((check_for_duplicate_item db cid "movies" (pyTrim rawTitle)
        (if pyTrim rawDirector = "" then none else some (pyTrim rawDirector))
        (if pyTrim rawYear = "" then none else pyInt? (pyTrim rawYear)) none).1 = false →
      ((search (pyTrim rawTitle)).movies ≠ [] →
        (previewRow db search cid rawTitle rawDirector rawYear).status = "found" ∧
        (previewRow db search cid rawTitle rawDirector rawYear).bestMatch =
          (search (pyTrim rawTitle)).movies.head? ∧
        (previewRow db search cid rawTitle rawDirector rawYear).searched = true) ∧
      ((search (pyTrim rawTitle)).movies = [] →
        (search (pyTrim rawTitle)).rateLimited = true →
        (previewRow db search cid rawTitle rawDirector rawYear).status = "pending" ∧
        (previewRow db search cid rawTitle rawDirector rawYear).bestMatch = none) ∧
      ((search (pyTrim rawTitle)).movies = [] →
        (search (pyTrim rawTitle)).rateLimited = false →
        (previewRow db search cid rawTitle rawDirector rawYear).status = "not_found" ∧
        (previewRow db search cid rawTitle rawDirector rawYear).error ≠ none)) ∧
    (∀ (oracle : String → HttpResult) (rand : ℕ → ℚ) (q : String),
      ((search_apple_movies oracle rand q).movies).Pairwise
        (fun a b => movieKeyLe a b = true)) := by
  refine ⟨?_, ?_, fun oracle rand q => search_apple_movies_ranked oracle rand q⟩
  · intro hdup
    unfold previewRow
    simp [htitle, hdup]
  · intro hdup
    refine ⟨?_, ?_, ?_⟩
    · intro hne
      unfold previewRow
      simp [htitle, hdup, hne]
    · intro hemp hrl
      unfold previewRow
      simp [htitle, hdup, hemp, hrl]
    · intro hemp hrl
      unfold previewRow
      simp [htitle, hdup, hemp, hrl]

/-- A rate-limited search outcome with no candidates. -/
def rlOutcome : SearchOutcome :=
  { movies := [], total := 0, rateLimited := true
    error := some "Rate limited by Apple Store API (20 calls/minute limit)"
    requests := 1 }

/-- Witness for C4: a non-duplicate row whose search is rate limited
is classified `pending`. -/
theorem claim_C4_preview_row_mapping_witness :
    (previewRow (tableDb []) (fun _ => rlOutcome) 7 "Dune" "" "").status =
      "pending" ∧
    (previewRow (tableDb []) (fun _ => rlOutcome) 7 "Dune" "" "").bestMatch = none :=
  ((claim_C4_preview_row_mapping (tableDb []) (fun _ => rlOutcome) 7
      "Dune" "" "" (by decide)).2.1 rfl).2.1 rfl rfl

theorem processSelected_updates_id (oracle : String → SearchOutcome) :
    ∀ (sel : List PendingRow), ∀ u ∈ (processSelected oracle sel).updates,
      ∃ q ∈ sel, u.id = q.id := by
  intro sel
  induction sel with
  | nil => intro u hu; simp [processSelected] at hu
  | cons p rest ih =>
    intro u hu
    match ho : (oracle p.title).movies with
    | m :: ms =>
      rw [processSelected] at hu
      simp only [ho] at hu
      rcases List.mem_cons.mp hu with h | h
      · exact ⟨p, List.mem_cons_self p rest, by rw [h]⟩
      · obtain ⟨q, hq, hid⟩ := ih u h
        exact ⟨q, List.mem_cons_of_mem p hq, hid⟩
    | [] =>
      rw [processSelected] at hu
      simp only [ho] at hu
      by_cases hrl : (oracle p.title).rateLimited
      · simp only [hrl, ite_true, if_pos] at hu
        rcases List.mem_singleton.mp hu with h
        exact ⟨p, List.mem_cons_self p rest, by rw [h]⟩
      · by_cases hrc : p.retryCount ≥ 3
        · simp only [hrl, hrc, ite_true, ite_false, if_neg, if_pos] at hu
          rcases List.mem_cons.mp hu with h | h
          · exact ⟨p, List.mem_cons_self p rest, by rw [h]⟩
          · obtain ⟨q, hq, hid⟩ := ih u h
            exact ⟨q, List.mem_cons_of_mem p hq, hid⟩
        · simp only [hrl, hrc, ite_false, if_neg] at hu
          rcases List.mem_cons.mp hu with h | h
          · exact ⟨p, List.mem_cons_self p rest, by rw [h]⟩
          · obtain ⟨q, hq, hid⟩ := ih u h
            exact ⟨q, List.mem_cons_of_mem p hq, hid⟩

theorem selectPending_mem {queue : List PendingRow} {q : PendingRow}
    (h : q ∈ selectPending queue) : q ∈ queue ∧ q.status = "pending" := by
  unfold selectPending at h
  have h1 : q ∈ queue.filter (fun p => p.status == "pending") :=
    List.mem_of_mem_take h
  have h2 := List.mem_filter.mp h1
  exact ⟨h2.1, by simpa using h2.2⟩

/-- Claim C5: a pending row at retry count 3 whose re-search again
finds nothing (and is not rate limited) transitions to `failed`;
`failed` rows are never selected and are left untouched by any
subsequent run; a rate-limited attempt keeps the row's status and
stops processing of the remaining selected rows. -/
theorem claim_C5_retry_ceiling :
    (∀ (oracle : String → SearchOutcome) (p : PendingRow) (rest : List PendingRow),
      (oracle p.title).movies = [] → (oracle p.title).rateLimited = false →
      p.retryCount = 3 →
      processSelected oracle (p :: rest) =
        { updates := { p with retryCount := p.retryCount + 1, status := "failed" } ::
            (processSelected oracle rest).updates
          inserted := (processSelected oracle rest).inserted
          processed := (processSelected oracle rest).processed + 1
          imported := (processSelected oracle rest).imported
          failed := (processSelected oracle rest).failed + 1 }) ∧
    (∀ (queue : List PendingRow) (p : PendingRow), p.status = "failed" →
      p ∉ selectPending queue) ∧
    (∀ (oracle : String → SearchOutcome) (queue : List PendingRow),
      (queue.map PendingRow.id).Nodup →
      ∀ (i : ℕ) (p : PendingRow), queue[i]? = some p → p.status = "failed" →
      ((process_pending oracle queue).2)[i]? = some p) ∧
    (∀ (oracle : String → SearchOutcome) (p : PendingRow) (rest : List PendingRow),
      (oracle p.title).movies = [] → (oracle p.title).rateLimited = true →
      processSelected oracle (p :: rest) =
        { updates := [{ p with retryCount := p.retryCount + 1 }]
          inserted := [], processed := 0, imported := 0, failed := 0 }) := by
  refine ⟨?_, ?_, ?_, ?_⟩
  · intro oracle p rest hmov hrl hrc
    rw [processSelected]
    simp [hmov, hrl, show p.retryCount ≥ 3 by omega]
  · intro queue p hfail hmem
    have := (selectPending_mem hmem).2
    rw [hfail] at this
    exact absurd this (by decide)
  · intro oracle queue hnodup i p hpi hfail
    have hpmem : p ∈ queue := by
      obtain ⟨hlt, rfl⟩ := List.getElem?_eq_some.mp hpi
      exact List.getElem_mem hlt
    have hfind : ((processSelected oracle (selectPending queue)).updates).find?
        (fun u => u.id == p.id) = none := by
      rw [List.find?_eq_none]
      intro u hu
      obtain ⟨q, hq, hid⟩ := processSelected_updates_id oracle _ u hu
      obtain ⟨hqmem, hqpend⟩ := selectPending_mem hq
      intro heq
      have huid : u.id = p.id := by simpa using heq
      have : q = p :=
        List.inj_on_of_nodup_map hnodup hqmem hpmem (by rw [← hid, huid])
      rw [this] at hqpend
      rw [hfail] at hqpend
      exact absurd hqpend (by decide)
    unfold process_pending
    simp only [List.getElem?_map, hpi, Option.map_some]
    simp [hfind]
  · intro oracle p rest hmov hrl
    rw [processSelected]
    simp [hmov, hrl]

/-- A pending row at the retry ceiling. -/
def p3row : PendingRow :=
  { id := 1, categoryId := 7, title := "Zzz", director := none, year := none
    csvRowData := none, status := "pending", retryCount := 3 }

/-- A search outcome with no candidates and no rate limit. -/
def emptyOutcome : SearchOutcome :=
  { movies := [], total := 0, rateLimited := false, error := none, requests := 0 }

/-- Witness for C5: the concrete retry-ceiling transition to `failed`. -/
theorem claim_C5_retry_ceiling_witness :
    processSelected (fun _ => emptyOutcome) [p3row] =
      { updates := { p3row with retryCount := p3row.retryCount + 1, status := "failed" } ::
          (processSelected (fun _ => emptyOutcome) []).updates
        inserted := (processSelected (fun _ => emptyOutcome) []).inserted
        processed := (processSelected (fun _ => emptyOutcome) []).processed + 1
        imported := (processSelected (fun _ => emptyOutcome) []).imported
        failed := (processSelected (fun _ => emptyOutcome) []).failed + 1 } :=
  claim_C5_retry_ceiling.1 (fun _ => emptyOutcome) p3row [] rfl rfl rfl

theorem migrateTable_cons (c : MigRow → MigRow) (r : MigRow)
    (rest dst : List MigRow) :
    migrateTable c (r :: rest) dst =
      migrateTable c rest (if anyId dst r.id then dst else dst ++ [c r]) := rfl

theorem anyId_migrateTable_mono (c : MigRow → MigRow) :
    ∀ (src dst : List MigRow) (i : ℤ), anyId dst i = true →
      anyId (migrateTable c src dst) i = true := by
  intro src
  induction src with
  | nil => intro dst i h; simpa [migrateTable] using h
  | cons r rest ih =>
    intro dst i h
    rw [migrateTable_cons]
    by_cases hin : anyId dst r.id
    · rw [if_pos hin]; exact ih dst i h
    · rw [if_neg hin]
      refine ih _ i ?_
      unfold anyId at h ⊢
      simp [List.any_append, h]

theorem mem_src_anyId (c : MigRow → MigRow) (hc : ∀ r, (c r).id = r.id) :
    ∀ (src dst : List MigRow), ∀ r ∈ src,
      anyId (migrateTable c src dst) r.id = true := by
  intro src
  induction src with
  | nil => intro dst r hr; simp at hr
  | cons a rest ih =>
    intro dst r hr
    rw [migrateTable_cons]
    rcases List.mem_cons.mp hr with h | h
    · subst h
      apply anyId_migrateTable_mono
      by_cases hin : anyId dst r.id
      · rw [if_pos hin]; exact hin
      · rw [if_neg hin]
        unfold anyId
        simp [List.any_append, anyId, hc]
    · exact ih _ r h

theorem migrateTable_noop (c : MigRow → MigRow) :
    ∀ (src dst : List MigRow), (∀ r ∈ src, anyId dst r.id = true) →
      migrateTable c src dst = dst := by
  intro src
  induction src with
  | nil => intro dst _; rfl
  | cons a rest ih =>
    intro dst hall
    rw [migrateTable_cons, if_pos (hall a (List.mem_cons_self a rest))]
    exact ih dst (fun r hr => hall r (List.mem_cons_of_mem a hr))

theorem migrateTable_idem (c : MigRow → MigRow) (hc : ∀ r, (c r).id = r.id)
    (src dst : List MigRow) :
    migrateTable c src (migrateTable c src dst) = migrateTable c src dst :=
  migrateTable_noop c src _ (fun r hr => mem_src_anyId c hc src dst r hr)

/-- Claim C9: running the existing-data migration twice against the
same source produces the same destination state — in particular the
same row count for categories, items, price history and pending
searches — because every insert is guarded by an id-existence check,
so the second run inserts nothing. -/
theorem claim_C9_idempotent_migration (cc ci cp cs : MigRow → MigRow)
    (hcc : ∀ r, (cc r).id = r.id) (hci : ∀ r, (ci r).id = r.id)
    (hcp : ∀ r, (cp r).id = r.id) (hcs : ∀ r, (cs r).id = r.id)
    (src dst : DbState) :
    migrate_existing_data cc ci cp cs src
        (migrate_existing_data cc ci cp cs src dst) =
      migrate_existing_data cc ci cp cs src dst ∧
    (migrate_existing_data cc ci cp cs src
        (migrate_existing_data cc ci cp cs src dst)).categories.length =
      (migrate_existing_data cc ci cp cs src dst).categories.length ∧
    (migrate_existing_data cc ci cp cs src
        (migrate_existing_data cc ci cp cs src dst)).items.length =
      (migrate_existing_data cc ci cp cs src dst).items.length ∧
    (migrate_existing_data cc ci cp cs src
        (migrate_existing_data cc ci cp cs src dst)).priceHistory.length =
      (migrate_existing_data cc ci cp cs src dst).priceHistory.length ∧
    (migrate_existing_data cc ci cp cs src
        (migrate_existing_data cc ci cp cs src dst)).pendingSearches.length =
      (migrate_existing_data cc ci cp cs src dst).pendingSearches.length := by
  have h : migrate_existing_data cc ci cp cs src
      (migrate_existing_data cc ci cp cs src dst) =
      migrate_existing_data cc ci cp cs src dst := by
    unfold migrate_existing_data
    simp [migrateTable_idem cc hcc, migrateTable_idem ci hci,
      migrateTable_idem cp hcp, migrateTable_idem cs hcs]
  exact ⟨h, by rw [h], by rw [h], by rw [h], by rw [h]⟩

/-- Witness for C9: a one-category source migrated twice into an empty
destination. -/
theorem claim_C9_idempotent_migration_witness :
    migrate_existing_data id id id id
        ⟨[⟨1, "cat"⟩], [⟨1, "item"⟩], [], []⟩
        (migrate_existing_data id id id id
          ⟨[⟨1, "cat"⟩], [⟨1, "item"⟩], [], []⟩ ⟨[], [], [], []⟩) =
      migrate_existing_data id id id id
        ⟨[⟨1, "cat"⟩], [⟨1, "item"⟩], [], []⟩ ⟨[], [], [], []⟩ :=
  (claim_C9_idempotent_migration id id id id (fun _ => rfl) (fun _ => rfl)
    (fun _ => rfl) (fun _ => rfl) ⟨[⟨1, "cat"⟩], [⟨1, "item"⟩], [], []⟩
    ⟨[], [], [], []⟩).1

end PriceNest
